import Mathlib

/-!
Shallow embedding of `main.py` of pronote-ics-sync: the Pronote read-through
cache (`PronoteBackend.get_lessons`), time normalization (`_to_local`),
stable event identifiers (`_uid_for`, SHA-1 based), and the ICS feed builder
(`lessons_to_ics`), together with theorems settling the specification claims.

Modelling conventions:
- wall-clock time (`time.time()`) is an integer number of seconds (`ℤ`);
  only ordering and addition of times matter to the cache logic;
- calendar dates (the `start_date`/`end_date` window bounds) are integers
  (ordinal days); window equality is value equality, as in Python;
- the upstream fetch (`pronotepy` client) is an external collaborator: each
  call is modelled by the `Except` outcome it would produce, and the number
  of upstream invocations performed by a call is returned explicitly;
- Python `datetime` objects are wall-clock seconds plus an optional fixed
  UTC offset in minutes (`tzinfo`); `hashlib.sha1` is implemented in full.
-/

set_option maxRecDepth 100000

namespace PronoteICS

/-- Decidable equality for `Except`, needed to evaluate cache-call outcomes
on concrete inputs. -/
instance {ε α : Type} [DecidableEq ε] [DecidableEq α] :
    DecidableEq (Except ε α) := fun x y =>
  match x, y with
  | .ok a, .ok b =>
      if h : a = b then .isTrue (by rw [h]) else .isFalse (by simp [h])
  | .error a, .error b =>
      if h : a = b then .isTrue (by rw [h]) else .isFalse (by simp [h])
  | .ok _, .error _ => .isFalse (by simp)
  | .error _, .ok _ => .isFalse (by simp)

/-! ## RefreshCache: `PronoteBackend.get_lessons` -/

/-- Mutable cache state of `PronoteBackend`: `_cache_until`, `_cache_range`
(a pair initialised to `(None, None)`), `_cache_lessons`. -/
structure CacheState (α : Type) where
  cache_until : ℤ
  cache_range : Option ℤ × Option ℤ
  cache_lessons : List α
  deriving DecidableEq, Repr

/-- Initial cache state set up by `PronoteBackend.__init__`:
`_cache_until = 0`, `_cache_range = (None, None)`, `_cache_lessons = []`. -/
def init_state (α : Type) : CacheState α := ⟨0, (none, none), []⟩

/-- One call to `PronoteBackend.get_lessons(start_date, end_date)` at time
`now`. `fetched` is the outcome the upstream `_fetch_lessons` would produce
if invoked. Returns the call's result, the cache state after the call, and
the number of upstream fetch invocations the call performed. -/
def get_lessons {α ε : Type} (ttl : ℤ) (fetched : Except ε (List α))
    (st : CacheState α) (start_date end_date : ℤ) (now : ℤ) :
    Except ε (List α) × CacheState α × Nat :=
  if now < st.cache_until ∧ st.cache_range.1 = some start_date ∧
      st.cache_range.2 = some end_date then
    (.ok st.cache_lessons, st, 0)
  else
    match fetched with
    | .ok lessons =>
        (.ok lessons,
         { cache_until := now + ttl,
           cache_range := (some start_date, some end_date),
           cache_lessons := lessons }, 1)
    | .error e => (.error e, st, 1)

/-- One inbound call: requested window (two dates), wall-clock time, and the
outcome the upstream fetch would produce if this call invokes it. -/
structure Call (α ε : Type) where
  s : ℤ
  e : ℤ
  now : ℤ
  fetched : Except ε (List α)

/-- State transition of one `get_lessons` call (discarding the result). -/
def step_cache {α ε : Type} (ttl : ℤ) (st : CacheState α) (c : Call α ε) :
    CacheState α :=
  (get_lessons ttl c.fetched st c.s c.e c.now).2.1

/-- State transition together with a ghost record of the creation time of
the currently stored cached result: it becomes `some now` exactly when the
call performed a successful upstream fetch and stored its result. -/
def step_ghost {α ε : Type} (ttl : ℤ) (stg : CacheState α × Option ℤ)
    (c : Call α ε) : CacheState α × Option ℤ :=
  let r := get_lessons ttl c.fetched stg.1 c.s c.e c.now
  (r.2.1,
   match r.1, r.2.2 with
   | .ok _, 1 => some c.now
   | _, _ => stg.2)

/-- Run a sequence of calls from a state. -/
def run_cache {α ε : Type} (ttl : ℤ) (st : CacheState α)
    (calls : List (Call α ε)) : CacheState α :=
  calls.foldl (step_cache ttl) st

/-- Run a sequence of calls with the ghost creation-time record. -/
def run_ghost {α ε : Type} (ttl : ℤ) (stg : CacheState α × Option ℤ)
    (calls : List (Call α ε)) : CacheState α × Option ℤ :=
  calls.foldl (step_ghost ttl) stg

/-! ## TimeNormalizer: `PronoteBackend._to_local` -/

/-- Python `datetime`: wall-clock seconds since 1970-01-01T00:00:00 (of the
clock the datetime displays) plus the `tzinfo` attribute, modelled as an
optional fixed UTC offset in minutes. `tzinfo = none` is a naive datetime. -/
structure Datetime where
  wall : ℤ
  tzinfo : Option ℤ
  deriving DecidableEq, Repr

/-- Absolute instant (seconds since the epoch in UTC) denoted by an aware
datetime: wall-clock seconds minus the UTC offset. -/
def instant (dt : Datetime) : ℤ := dt.wall - 60 * dt.tzinfo.getD 0

/-- `PronoteBackend._to_local(dt)`: `None` passes through; a naive datetime
gets the local zone attached by `dt.replace(tzinfo=...)` (wall clock kept);
an aware datetime is converted by `dt.astimezone(...)` (instant kept, wall
clock shifted by the offset difference). `local_tz` is the backend's zone as
a UTC offset in minutes. -/
def to_local (local_tz : ℤ) (dt : Option Datetime) : Option Datetime :=
  match dt with
  | none => none
  | some d =>
      match d.tzinfo with
      | none => some { d with tzinfo := some local_tz }
      | some off => some ⟨d.wall + 60 * (local_tz - off), some local_tz⟩

/-! ## EventIdentity: `hashlib.sha1` and `PronoteBackend._uid_for` -/

/-- Rotate a 32-bit word (a `Nat < 2^32`) left by `n` bits. -/
def rotl (n x : Nat) : Nat := ((x <<< n) ||| (x >>> (32 - n))) % 4294967296

/-- Big-endian 32-bit words from a byte list (groups of four). -/
def bytes_to_words : List Nat → List Nat
  | b0 :: b1 :: b2 :: b3 :: rest =>
      ((b0 <<< 24) ||| (b1 <<< 16) ||| (b2 <<< 8) ||| b3) :: bytes_to_words rest
  | _ => []

/-- Big-endian 8-byte encoding of a message bit length. -/
def len_bytes (n : Nat) : List Nat :=
  (List.range 8).map (fun i => (n >>> (8 * (7 - i))) % 256)

/-- SHA-1 padding: append `0x80`, zeros to 56 mod 64, then the 64-bit
big-endian bit length. -/
def sha1_pad (msg : List Nat) : List Nat :=
  msg ++ [128] ++ List.replicate ((119 - msg.length % 64) % 64) 0 ++
    len_bytes (8 * msg.length)

/-- Split a byte list into 64-byte blocks (fuel-based structural recursion). -/
def chunks64_aux : Nat → List Nat → List (List Nat)
  | 0, _ => []
  | _, [] => []
  | fuel + 1, l => l.take 64 :: chunks64_aux fuel (l.drop 64)

/-- Split a byte list into 64-byte blocks. -/
def chunks64 (l : List Nat) : List (List Nat) := chunks64_aux l.length l

/-- Extend the message schedule by `n` words; `acc` holds the schedule so
far, newest word first, so `w[t-3]`, `w[t-8]`, `w[t-14]`, `w[t-16]` are at
positions 2, 7, 13, 15. -/
def sha1_extend : Nat → List Nat → List Nat
  | 0, acc => acc
  | t + 1, acc =>
      sha1_extend t
        (rotl 1 ((acc.getD 2 0) ^^^ (acc.getD 7 0) ^^^ (acc.getD 13 0) ^^^
          (acc.getD 15 0)) :: acc)

/-- The 80-word SHA-1 message schedule of one 64-byte block. -/
def sha1_schedule (block : List Nat) : List Nat :=
  (sha1_extend 64 (bytes_to_words block).reverse).reverse

/-- SHA-1 round function by round index. -/
def sha1_f (t b c d : Nat) : Nat :=
  if t < 20 then (b &&& c) ||| ((4294967295 ^^^ b) &&& d)
  else if t < 40 then b ^^^ c ^^^ d
  else if t < 60 then (b &&& c) ||| (b &&& d) ||| (c &&& d)
  else b ^^^ c ^^^ d

/-- SHA-1 round constant by round index. -/
def sha1_k (t : Nat) : Nat :=
  if t < 20 then 1518500249
  else if t < 40 then 1859775393
  else if t < 60 then 2400959708
  else 3395469782

/-- One SHA-1 round on the five-word state; `tw` is (round index, schedule
word). -/
def sha1_round (st : Nat × Nat × Nat × Nat × Nat) (tw : Nat × Nat) :
    Nat × Nat × Nat × Nat × Nat :=
  let (a, b, c, d, e) := st
  ((rotl 5 a + sha1_f tw.1 b c d + e + sha1_k tw.1 + tw.2) % 4294967296,
   a, rotl 30 b, c, d)

/-- Compress one 64-byte block into the running hash state. -/
def sha1_block (h : Nat × Nat × Nat × Nat × Nat) (block : List Nat) :
    Nat × Nat × Nat × Nat × Nat :=
  let r := ((List.range 80).zip (sha1_schedule block)).foldl sha1_round h
  ((h.1 + r.1) % 4294967296,
   (h.2.1 + r.2.1) % 4294967296,
   (h.2.2.1 + r.2.2.1) % 4294967296,
   (h.2.2.2.1 + r.2.2.2.1) % 4294967296,
   (h.2.2.2.2 + r.2.2.2.2) % 4294967296)

/-- SHA-1 digest of a byte list, as five 32-bit words. -/
def sha1_words (msg : List Nat) : Nat × Nat × Nat × Nat × Nat :=
  (chunks64 (sha1_pad msg)).foldl sha1_block
    (1732584193, 4023233417, 2562383102, 271733878, 3285377520)

/-- Lower-case hexadecimal digit. -/
def hex_digit (n : Nat) : Char :=
  Char.ofNat (if n < 10 then 48 + n else 87 + n)

/-- Eight-hex-digit rendering of a 32-bit word. -/
def to_hex8 (x : Nat) : String :=
  String.mk ((List.range 8).map (fun i => hex_digit ((x >>> (28 - 4 * i)) % 16)))

/-- `hashlib.sha1(...).hexdigest()` of a byte list. -/
def sha1_hex (msg : List Nat) : String :=
  let h := sha1_words msg
  to_hex8 h.1 ++ to_hex8 h.2.1 ++ to_hex8 h.2.2.1 ++ to_hex8 h.2.2.2.1 ++
    to_hex8 h.2.2.2.2

/-- UTF-8 encoding of one character. -/
def utf8_char (c : Char) : List Nat :=
  let n := c.toNat
  if n < 128 then [n]
  else if n < 2048 then [192 ||| (n >>> 6), 128 ||| (n &&& 63)]
  else if n < 65536 then
    [224 ||| (n >>> 12), 128 ||| ((n >>> 6) &&& 63), 128 ||| (n &&& 63)]
  else
    [240 ||| (n >>> 18), 128 ||| ((n >>> 12) &&& 63), 128 ||| ((n >>> 6) &&& 63),
     128 ||| (n &&& 63)]

/-- `str.encode("utf-8")` as a byte list. -/
def utf8_encode (s : String) : List Nat := (s.data.map utf8_char).flatten

/-- Gregorian civil date (year, month, day) from days since 1970-01-01,
using floor division throughout. -/
def civil_from_days (z0 : ℤ) : ℤ × ℤ × ℤ :=
  let z := z0 + 719468
  let era := Int.fdiv z 146097
  let doe := z - era * 146097
  let yoe :=
    Int.fdiv (doe - Int.fdiv doe 1460 + Int.fdiv doe 36524 - Int.fdiv doe 146096)
      365
  let y := yoe + era * 400
  let doy := doe - (365 * yoe + Int.fdiv yoe 4 - Int.fdiv yoe 100)
  let mp := Int.fdiv (5 * doy + 2) 153
  let d := doy - Int.fdiv (153 * mp + 2) 5 + 1
  let m := mp + (if mp < 10 then 3 else -9)
  (y + (if m ≤ 2 then 1 else 0), m, d)

/-- Two-digit zero-padded decimal. -/
def pad2 (n : Nat) : String :=
  if n < 10 then "0" ++ toString n else toString n

/-- Four-digit zero-padded decimal. -/
def pad4 (n : Nat) : String :=
  if n < 10 then "000" ++ toString n
  else if n < 100 then "00" ++ toString n
  else if n < 1000 then "0" ++ toString n
  else toString n

/-- UTC-offset suffix of `datetime.isoformat()`: empty for a naive datetime,
otherwise a signed `±HH:MM` rendering of the offset in minutes. -/
def offset_str (tzinfo : Option ℤ) : String :=
  match tzinfo with
  | none => ""
  | some off =>
      (if off < 0 then "-" else "+") ++ pad2 (off.natAbs / 60) ++ ":" ++
        pad2 (off.natAbs % 60)

/-- Python `datetime.isoformat()` for a whole-second datetime:
`YYYY-MM-DDTHH:MM:SS` plus the offset suffix when a zone is attached. -/
def isoformat (dt : Datetime) : String :=
  let days := Int.fdiv dt.wall 86400
  let sod := (Int.fmod dt.wall 86400).toNat
  let ymd := civil_from_days days
  pad4 ymd.1.toNat ++ "-" ++ pad2 ymd.2.1.toNat ++ "-" ++ pad2 ymd.2.2.toNat ++
    "T" ++ pad2 (sod / 3600) ++ ":" ++ pad2 (sod / 60 % 60) ++ ":" ++
    pad2 (sod % 60) ++ offset_str dt.tzinfo

/-- `PronoteBackend._uid_for(start_dt, title, room, teacher)`: SHA-1 hex
digest of the UTF-8 bytes of `"<isoformat>|<title>|<room>|<teacher>"`,
suffixed with the fixed namespace tag `"@pronote-ics"`. -/
def uid_for (start_dt : Datetime) (title room teacher : String) : String :=
  sha1_hex (utf8_encode
      (isoformat start_dt ++ "|" ++ title ++ "|" ++ room ++ "|" ++ teacher)) ++
    "@pronote-ics"

/-! ## FeedBuilder: `PronoteBackend.lessons_to_ics` -/

/-- A pronotepy lesson as `lessons_to_ics` reads it through `getattr`: every
attribute may be missing or `None` (`none`); string attributes may also be
empty. -/
structure Lesson where
  start : Option Datetime
  end_ : Option Datetime
  subject : Option String
  subject_name : Option String
  classroom : Option String
  classroom_name : Option String
  teacher : Option String
  teacher_name : Option String
  group_name : Option String
  canceled : Bool
  deriving DecidableEq, Repr

/-- Python `a or b` on strings (`""` is falsy). -/
def or_str (a b : String) : String := if a = "" then b else a

/-- Python `getattr(lesson, attr, default) or ...` head: a missing/`None`
attribute and an empty string are both falsy. -/
def attr_or (a : Option String) (b : String) : String :=
  match a with
  | none => b
  | some s => or_str s b

/-- One VEVENT as built by the loop body of `lessons_to_ics`. -/
structure Event where
  summary : String
  description : String
  location : Option String
  uid : String
  dtstart : Datetime
  dtend : Datetime
  status : String
  deriving DecidableEq, Repr

/-- The loop body of `lessons_to_ics` for one lesson: normalize start/end
and skip (`continue` → `none`) unless both are present; resolve the display
fields through the `or` fallback chains; build the event. -/
def event_for (local_tz : ℤ) (lesson : Lesson) : Option Event :=
  match to_local local_tz lesson.start, to_local local_tz lesson.end_ with
  | some start, some end_ =>
      let title := attr_or lesson.subject (attr_or lesson.subject_name "Cours")
      let room := attr_or lesson.classroom (or_str (attr_or lesson.classroom_name "") "")
      let teacher := attr_or lesson.teacher (or_str (attr_or lesson.teacher_name "") "")
      let group := or_str (attr_or lesson.group_name "") ""
      let canceled := lesson.canceled
      let desc_lines :=
        (if teacher ≠ "" then ["Enseignant·e : " ++ teacher] else []) ++
        (if room ≠ "" then ["Salle : " ++ room] else []) ++
        (if canceled then ["⚠️ Séance annulée"] else [])
      some
        { summary := if group = "" then title else title ++ " (" ++ group ++ ")",
          description :=
            if desc_lines = [] then "Séance"
            else String.intercalate "\n" desc_lines,
          location := if room ≠ "" then some room else none,
          uid := uid_for start title room teacher,
          dtstart := start,
          dtend := end_,
          status := if canceled then "CANCELLED" else "CONFIRMED" }
  | _, _ => none

/-- The calendar document assembled by `lessons_to_ics` before the external
`icalendar` serialization: `prodid`, `version`, and the events the loop
appended. -/
structure Calendar where
  prodid : String
  version : String
  events : List Event
  deriving DecidableEq, Repr

/-- `PronoteBackend.lessons_to_ics(lessons)` up to serialization: one event
per lesson whose normalized start and end both exist. -/
def lessons_to_ics (local_tz : ℤ) (lessons : List Lesson) : Calendar :=
  { prodid := "-//Pronote ICS//Assia//FR",
    version := "2.0",
    events := lessons.filterMap (event_for local_tz) }

/-- The spec's example lesson (2024-03-04T08:00+01:00 → 09:00, Math, B12,
Dupont, not canceled). -/
def example_lesson : Lesson :=
  { start := some ⟨1709539200, some 60⟩
    end_ := some ⟨1709542800, some 60⟩
    subject := some "Math"
    subject_name := none
    classroom := some "B12"
    classroom_name := none
    teacher := some "Dupont"
    teacher_name := none
    group_name := none
    canceled := false }

/-! ## Claim-side display-field resolution (stated from the spec wording,
for comparison with the source-side `event_for`) -/

/-- Title per the spec: the primary subject field, else the secondary alias
field, else the default (the source's literal is `"Cours"`). -/
def claim_title (l : Lesson) : String :=
  match l.subject with
  | some s =>
      if s ≠ "" then s
      else
        match l.subject_name with
        | some s2 => if s2 ≠ "" then s2 else "Cours"
        | none => "Cours"
  | none =>
      match l.subject_name with
      | some s2 => if s2 ≠ "" then s2 else "Cours"
      | none => "Cours"

/-- Room per the spec: primary field, else alias, defaulting to `""`. -/
def claim_room (l : Lesson) : String :=
  match l.classroom with
  | some s =>
      if s ≠ "" then s
      else
        match l.classroom_name with
        | some s2 => if s2 ≠ "" then s2 else ""
        | none => ""
  | none =>
      match l.classroom_name with
      | some s2 => if s2 ≠ "" then s2 else ""
      | none => ""

/-- Teacher per the spec: primary field, else alias, defaulting to `""`. -/
def claim_teacher (l : Lesson) : String :=
  match l.teacher with
  | some s =>
      if s ≠ "" then s
      else
        match l.teacher_name with
        | some s2 => if s2 ≠ "" then s2 else ""
        | none => ""
  | none =>
      match l.teacher_name with
      | some s2 => if s2 ≠ "" then s2 else ""
      | none => ""

/-- Optional group label per the spec (empty when absent). -/
def claim_group (l : Lesson) : String :=
  match l.group_name with
  | some s => s
  | none => ""

/-- Summary per the spec: the title, or `"<title> (<group>)"` when a group
label is present. -/
def claim_summary (l : Lesson) : String :=
  if claim_group l = "" then claim_title l
  else claim_title l ++ " (" ++ claim_group l ++ ")"

/-- A lesson whose subject fields are both absent, used to exhibit the
default title. -/
def no_subject_lesson : Lesson :=
  { start := some ⟨1709539200, some 60⟩
    end_ := some ⟨1709542800, some 60⟩
    subject := none
    subject_name := none
    classroom := none
    classroom_name := none
    teacher := none
    teacher_name := none
    group_name := none
    canceled := false }

/-! ## Helper lemmas on the cache -/

theorem get_lessons_hit {α ε : Type} (ttl : ℤ) (f : Except ε (List α))
    (st : CacheState α) (s e now : ℤ)
    (h : now < st.cache_until ∧ st.cache_range.1 = some s ∧
      st.cache_range.2 = some e) :
    get_lessons ttl f st s e now = (.ok st.cache_lessons, st, 0) := by
  unfold get_lessons
  rw [if_pos h]

theorem get_lessons_miss_ok {α ε : Type} (ttl : ℤ) (L : List α)
    (st : CacheState α) (s e now : ℤ)
    (h : ¬(now < st.cache_until ∧ st.cache_range.1 = some s ∧
      st.cache_range.2 = some e)) :
    get_lessons (ε := ε) ttl (.ok L) st s e now =
      (.ok L, ⟨now + ttl, (some s, some e), L⟩, 1) := by
  unfold get_lessons
  rw [if_neg h]

theorem get_lessons_miss_error {α ε : Type} (ttl : ℤ) (er : ε)
    (st : CacheState α) (s e now : ℤ)
    (h : ¬(now < st.cache_until ∧ st.cache_range.1 = some s ∧
      st.cache_range.2 = some e)) :
    get_lessons (α := α) ttl (.error er) st s e now = (.error er, st, 1) := by
  unfold get_lessons
  rw [if_neg h]

theorem get_lessons_store_state {α ε : Type} (ttl : ℤ) (L : List α)
    (st st1 : CacheState α) (s e t1 : ℤ)
    (h : get_lessons (ε := ε) ttl (.ok L) st s e t1 = (.ok L, st1, 1)) :
    st1 = ⟨t1 + ttl, (some s, some e), L⟩ := by
  by_cases hc : t1 < st.cache_until ∧ st.cache_range.1 = some s ∧
      st.cache_range.2 = some e
  · rw [get_lessons_hit ttl _ st s e t1 hc] at h
    simp [Prod.ext_iff] at h
  · rw [get_lessons_miss_ok ttl L st s e t1 hc] at h
    simp [Prod.ext_iff] at h
    exact h.symm

theorem run_cache_all_hits {α ε : Type} (ttl s e tstore : ℤ) (L : List α)
    (mids : List (Call α ε))
    (hmids : ∀ c ∈ mids, c.s = s ∧ c.e = e ∧ c.now < tstore) :
    run_cache ttl ⟨tstore, (some s, some e), L⟩ mids =
      ⟨tstore, (some s, some e), L⟩ := by
  induction mids with
  | nil => rfl
  | cons c cs ih =>
      obtain ⟨⟨hcs, hce, hcn⟩, htl⟩ := List.forall_mem_cons.mp hmids
      have hstep : step_cache ttl ⟨tstore, (some s, some e), L⟩ c =
          ⟨tstore, (some s, some e), L⟩ := by
        unfold step_cache
        rw [get_lessons_hit ttl c.fetched _ c.s c.e c.now
          ⟨hcn, by rw [hcs], by rw [hce]⟩]
      show run_cache ttl (step_cache ttl ⟨tstore, (some s, some e), L⟩ c) cs =
        ⟨tstore, (some s, some e), L⟩
      rw [hstep]
      exact ih htl

/-- Ghost invariant: whenever the cache holds a stored result, the ghost
creation time is recorded and `cache_until` is at least that time plus the
TTL. -/
def ghost_inv {α : Type} (ttl : ℤ) (p : CacheState α × Option ℤ) : Prop :=
  p.1.cache_range ≠ (none, none) →
    ∃ t, p.2 = some t ∧ t + ttl ≤ p.1.cache_until

theorem ghost_inv_step {α ε : Type} (ttl : ℤ) (p : CacheState α × Option ℤ)
    (c : Call α ε) (h : ghost_inv ttl p) : ghost_inv ttl (step_ghost ttl p c) := by
  unfold ghost_inv step_ghost
  by_cases hc : c.now < p.1.cache_until ∧ p.1.cache_range.1 = some c.s ∧
      p.1.cache_range.2 = some c.e
  · rw [get_lessons_hit ttl c.fetched p.1 c.s c.e c.now hc]
    exact h
  · cases hf : c.fetched with
    | ok L =>
        rw [get_lessons_miss_ok ttl L p.1 c.s c.e c.now hc]
        exact fun _ => ⟨c.now, rfl, le_refl _⟩
    | error er =>
        rw [get_lessons_miss_error ttl er p.1 c.s c.e c.now hc]
        exact h

theorem ghost_inv_run {α ε : Type} (ttl : ℤ) (p : CacheState α × Option ℤ)
    (calls : List (Call α ε)) (h : ghost_inv ttl p) :
    ghost_inv ttl (run_ghost ttl p calls) := by
  induction calls generalizing p with
  | nil => exact h
  | cons c cs ih =>
      show ghost_inv ttl (run_ghost ttl (step_ghost ttl p c) cs)
      exact ih _ (ghost_inv_step ttl p c h)

theorem get_lessons_miss_fetches {α ε : Type} (ttl : ℤ) (f : Except ε (List α))
    (st : CacheState α) (s e now : ℤ)
    (h : ¬(now < st.cache_until ∧ st.cache_range.1 = some s ∧
      st.cache_range.2 = some e)) :
    (get_lessons ttl f st s e now).2.2 = 1 := by
  cases f with
  | ok L => rw [get_lessons_miss_ok ttl L st s e now h]
  | error er => rw [get_lessons_miss_error ttl er st s e now h]

/-- Validation of the SHA-1 implementation against the standard external
test vector for `"abc"`. -/
theorem sha1_test_vector :
    sha1_hex (utf8_encode "abc") =
      "a9993e364706816aba3e25717850c26c9cd0d89d" := by
  decide

/-- Validation of the builder on the spec's worked example: one event with
summary `"Math"`, location `"B12"`, description containing teacher and
room, status CONFIRMED. -/
theorem spec_example_event :
    event_for 60 example_lesson =
      some { summary := "Math",
             description := "Enseignant·e : Dupont\nSalle : B12",
             location := some "B12",
             uid := "0371b769ef9c1741acfd1b226d4148f633186a1c@pronote-ics",
             dtstart := ⟨1709539200, some 60⟩,
             dtend := ⟨1709542800, some 60⟩,
             status := "CONFIRMED" } := by
  decide

/-! ## Claim theorems -/

/-- C10: cache hits are read-only. When the requested window equals the
stored one and `now < _cache_until`, `get_lessons` returns the stored
lessons, performs no upstream fetch, and leaves every field of the cache
state (including `_cache_until`, so expiry is never extended by a read)
exactly as it was. -/
theorem C10_cache_hit_read_only {α ε : Type} (ttl : ℤ) (f : Except ε (List α))
    (st : CacheState α) (s e now : ℤ)
    (h1 : now < st.cache_until) (h2 : st.cache_range.1 = some s)
    (h3 : st.cache_range.2 = some e) :
    get_lessons ttl f st s e now = (.ok st.cache_lessons, st, 0) :=
  get_lessons_hit ttl f st s e now ⟨h1, h2, h3⟩

/-- Witness for C10 at a concrete hit. -/
theorem C10_cache_hit_read_only_witness :
    (50 : ℤ) < 100 ∧
    get_lessons (ε := Unit) 100 (.ok [2]) ⟨100, (some 0, some 1), [1]⟩ 0 1 50 =
      (.ok [1], ⟨100, (some 0, some 1), [1]⟩, 0) :=
  ⟨by decide,
   C10_cache_hit_read_only 100 (.ok [2]) ⟨100, (some 0, some 1), [1]⟩ 0 1 50
     (by decide) (by decide) (by decide)⟩

/-- C1 (counterexample): the claim as stated is false. Start from the empty
cache, fetch window (0,1) at time 0 with TTL 100 (stores, `_cache_until =
100`). The call at `t1 = 90` succeeds (a cache hit returning `[1]`), and
`t2 = 150` satisfies `t1 < t2 < t1 + TTL` with no intervening call, yet the
call at `t2` performs an upstream fetch (count 1) and returns the newly
fetched `[2]`, not the stored `[1]`: expiry is measured from the fetch at
time 0, not from `t1`. -/
theorem C1_counterexample :
    run_cache (ε := Unit) 100 (init_state ℕ) [⟨0, 1, 0, .ok [1]⟩] =
      ⟨100, (some 0, some 1), [1]⟩ ∧
    (90 : ℤ) < 150 ∧ (150 : ℤ) < 90 + 100 ∧
    (get_lessons (ε := Unit) 100 (.ok [5]) ⟨100, (some 0, some 1), [1]⟩ 0 1 90).1 =
      .ok [1] ∧
    (get_lessons (ε := Unit) 100 (.ok [5]) ⟨100, (some 0, some 1), [1]⟩ 0 1 90).2.1 =
      ⟨100, (some 0, some 1), [1]⟩ ∧
    (get_lessons (ε := Unit) 100 (.ok [2]) ⟨100, (some 0, some 1), [1]⟩ 0 1 150).2.2 =
      1 ∧
    (get_lessons (ε := Unit) 100 (.ok [2]) ⟨100, (some 0, some 1), [1]⟩ 0 1 150).1 ≠
      .ok [1] := by
  decide

/-- C1 (amended): if the call at `t1` performed a successful upstream fetch
(storing window `(s, e)` with lessons `L`), then after any intervening
same-window calls before `t1 + TTL`, a call at `t2 < t1 + TTL` on the same
window returns exactly the stored lessons, performs no upstream fetch, and
leaves the state unchanged. -/
theorem C1_amended_cache_hit {α ε : Type} (ttl : ℤ) (st st1 : CacheState α)
    (s e t1 : ℤ) (L : List α)
    (hfirst : get_lessons (ε := ε) ttl (.ok L) st s e t1 = (.ok L, st1, 1))
    (mids : List (Call α ε))
    (hmids : ∀ c ∈ mids, c.s = s ∧ c.e = e ∧ c.now < t1 + ttl)
    (t2 : ℤ) (f2 : Except ε (List α)) (_h12 : t1 < t2) (h2 : t2 < t1 + ttl) :
    run_cache ttl st1 mids = st1 ∧
    get_lessons ttl f2 (run_cache ttl st1 mids) s e t2 = (.ok L, st1, 0) := by
  have hst1 := get_lessons_store_state ttl L st st1 s e t1 hfirst
  subst hst1
  have hrun := run_cache_all_hits ttl s e (t1 + ttl) L mids hmids
  refine ⟨hrun, ?_⟩
  rw [hrun]
  exact get_lessons_hit ttl f2 _ s e t2 ⟨h2, rfl, rfl⟩

/-- Witness for the amended C1: fetch-and-store at time 0, one intervening
same-window call at time 50, then a hit at time 60. -/
theorem C1_amended_cache_hit_witness :
    run_cache (ε := Unit) 100 ⟨0 + 100, (some 0, some 1), [1]⟩
        [⟨0, 1, 50, .ok [9]⟩] = ⟨0 + 100, (some 0, some 1), [1]⟩ ∧
    get_lessons (ε := Unit) 100 (.ok [2])
        (run_cache (ε := Unit) 100 ⟨0 + 100, (some 0, some 1), [1]⟩
          [⟨0, 1, 50, .ok [9]⟩])
        0 1 60 = (.ok [1], ⟨0 + 100, (some 0, some 1), [1]⟩, 0) :=
  C1_amended_cache_hit 100 (init_state ℕ) _ 0 1 0 [1] (by decide)
    [⟨0, 1, 50, .ok [9]⟩] (by decide) 60 (.ok [2]) (by decide) (by decide)

/-- C2: cache miss. Whenever the requested window differs from the stored
one or `now ≥ _cache_until`, `get_lessons` performs exactly one upstream
fetch; on success the whole state is replaced (`_cache_range := (s, e)`,
`_cache_lessons := L`, `_cache_until := now + ttl`) and the fetched lessons
are returned. In particular a different window misses regardless of TTL,
and after a store at `t1` a call at `t1 + ttl + eps` (`eps ≥ 0`) misses. -/
theorem C2_cache_miss {α ε : Type} :
    (∀ (ttl : ℤ) (f : Except ε (List α)) (st : CacheState α) (s e now : ℤ),
       ¬(now < st.cache_until ∧ st.cache_range.1 = some s ∧
         st.cache_range.2 = some e) →
       (get_lessons ttl f st s e now).2.2 = 1 ∧
       ∀ L, f = .ok L →
         get_lessons ttl f st s e now =
           (.ok L, ⟨now + ttl, (some s, some e), L⟩, 1)) ∧
    (∀ (ttl : ℤ) (f : Except ε (List α)) (st : CacheState α) (s e now : ℤ),
       st.cache_range.1 ≠ some s ∨ st.cache_range.2 ≠ some e →
       (get_lessons ttl f st s e now).2.2 = 1) ∧
    (∀ (ttl : ℤ) (f : Except ε (List α)) (s e t1 eps : ℤ) (L : List α),
       0 ≤ eps →
       (get_lessons ttl f ⟨t1 + ttl, (some s, some e), L⟩ s e
         (t1 + ttl + eps)).2.2 = 1) := by
  refine ⟨fun ttl f st s e now h => ⟨get_lessons_miss_fetches ttl f st s e now h, ?_⟩,
    fun ttl f st s e now h => get_lessons_miss_fetches ttl f st s e now
      (fun hc => by rcases h with h | h <;> [exact h hc.2.1; exact h hc.2.2]),
    fun ttl f s e t1 eps L heps => get_lessons_miss_fetches ttl f _ s e _
      (fun hc => absurd hc.1 (by simp; omega))⟩
  intro L hL
  subst hL
  exact get_lessons_miss_ok ttl L st s e now h

/-- Witness for C2: an expired same-window call that stores `[2]`, a
different-window call, and a call exactly `eps = 5` past expiry. -/
theorem C2_cache_miss_witness :
    ((get_lessons (ε := Unit) 100 (.ok [2]) ⟨100, (some 0, some 1), [1]⟩ 0 1
        150).2.2 = 1 ∧
      ∀ L, (Except.ok [2] : Except Unit (List ℕ)) = .ok L →
        get_lessons (ε := Unit) 100 (.ok [2]) ⟨100, (some 0, some 1), [1]⟩ 0 1
            150 = (.ok L, ⟨150 + 100, (some 0, some 1), L⟩, 1)) ∧
    (get_lessons (ε := Unit) 100 (.ok [7]) ⟨1000, (some 0, some 1), [1]⟩ 2 3
        50).2.2 = 1 ∧
    (get_lessons (ε := Unit) 100 (.ok [8]) ⟨0 + 100, (some 0, some 1), [1]⟩ 0 1
        (0 + 100 + 5)).2.2 = 1 :=
  ⟨(C2_cache_miss (α := ℕ) (ε := Unit)).1 100 (.ok [2]) ⟨100, (some 0, some 1), [1]⟩
      0 1 150 (by decide),
   (C2_cache_miss (α := ℕ) (ε := Unit)).2.1 100 (.ok [7])
      ⟨1000, (some 0, some 1), [1]⟩ 2 3 50 (by decide),
   (C2_cache_miss (α := ℕ) (ε := Unit)).2.2 100 (.ok [8]) 0 1 0 5 [1] (by decide)⟩

/-- C3: fetch-failure atomicity. If a call performed the upstream fetch
(count 1) and the fetch failed with `er`, the call returns exactly that
error and the cache state after the call is exactly the state before it --
no field is modified. -/
theorem C3_fetch_failure_atomic {α ε : Type} (ttl : ℤ) (er : ε)
    (st : CacheState α) (s e now : ℤ)
    (h : (get_lessons (α := α) ttl (.error er) st s e now).2.2 = 1) :
    get_lessons (α := α) ttl (.error er) st s e now = (.error er, st, 1) := by
  by_cases hc : now < st.cache_until ∧ st.cache_range.1 = some s ∧
      st.cache_range.2 = some e
  · rw [get_lessons_hit ttl _ st s e now hc] at h
    simp at h
  · exact get_lessons_miss_error ttl er st s e now hc

/-- Witness for C3 at a concrete expired state with a failing fetch. -/
theorem C3_fetch_failure_atomic_witness :
    get_lessons (α := ℕ) 100 (.error ()) ⟨100, (some 0, some 1), [1]⟩ 0 1 150 =
      (.error (), ⟨100, (some 0, some 1), [1]⟩, 1) :=
  C3_fetch_failure_atomic 100 () ⟨100, (some 0, some 1), [1]⟩ 0 1 150 (by decide)

/-- C8: expiry invariant. In every state reachable by a sequence of calls
from the initial state, if the cache holds a stored result then the ghost
creation time `t` of that result is recorded and `_cache_until ≥ t + ttl`
(the code sets `_cache_until = t + ttl` exactly at creation). -/
theorem C8_expiry_invariant {α ε : Type} (ttl : ℤ) (calls : List (Call α ε))
    (h : (run_ghost ttl (init_state α, none) calls).1.cache_range ≠ (none, none)) :
    ∃ t, (run_ghost ttl (init_state α, none) calls).2 = some t ∧
      t + ttl ≤ (run_ghost ttl (init_state α, none) calls).1.cache_until :=
  ghost_inv_run ttl (init_state α, none) calls (fun hne => absurd rfl hne) h

/-- Witness for C8 after one storing call. -/
theorem C8_expiry_invariant_witness :
    ∃ t, (run_ghost (ε := Unit) 100 (init_state ℕ, none) [⟨0, 1, 5, .ok [3]⟩]).2 =
        some t ∧
      t + 100 ≤ (run_ghost (ε := Unit) 100 (init_state ℕ, none)
        [⟨0, 1, 5, .ok [3]⟩]).1.cache_until :=
  C8_expiry_invariant 100 [⟨0, 1, 5, .ok [3]⟩] (by decide)

/-- C6: time normalization. `_to_local` maps `None` to `None`; a naive
datetime gets the target zone attached with its wall-clock value unchanged
(no reinterpretation via UTC); an aware datetime is converted to the target
zone preserving the denoted instant; and the function is total with no
error case (`isSome` is preserved). -/
theorem C6_time_normalization (z : ℤ) :
    to_local z none = none ∧
    (∀ w : ℤ, to_local z (some ⟨w, none⟩) = some ⟨w, some z⟩) ∧
    (∀ w off : ℤ, ∃ w2 : ℤ,
       to_local z (some ⟨w, some off⟩) = some ⟨w2, some z⟩ ∧
       instant ⟨w2, some z⟩ = instant ⟨w, some off⟩) ∧
    (∀ dt : Option Datetime, (to_local z dt).isSome = dt.isSome) := by
  refine ⟨rfl, fun w => rfl,
    fun w off => ⟨w + 60 * (z - off), rfl, ?_⟩, fun dt => ?_⟩
  · simp only [instant, Option.getD_some]
    ring
  · rcases dt with _ | ⟨w, _ | off⟩ <;> rfl

/-- C4: event identity. `_uid_for` is the SHA-1 hex digest of the UTF-8
bytes of `"<isoformat(start)>|<title>|<room>|<teacher>"` followed by the
fixed namespace tag `"@pronote-ics"`; as a pure function it is
deterministic in its inputs. On the spec's example input its value is the
digest computed independently by an external SHA-1 implementation of
`"2024-03-04T08:00:00+01:00|Math|B12|Dupont"`, plus the tag. -/
theorem C4_event_identity :
    (∀ (dt : Datetime) (title room teacher : String),
       uid_for dt title room teacher =
         sha1_hex (utf8_encode (isoformat dt ++ "|" ++ title ++ "|" ++ room ++
           "|" ++ teacher)) ++ "@pronote-ics") ∧
    isoformat ⟨1709539200, some 60⟩ = "2024-03-04T08:00:00+01:00" ∧
    uid_for ⟨1709539200, some 60⟩ "Math" "B12" "Dupont" =
      "0371b769ef9c1741acfd1b226d4148f633186a1c@pronote-ics" :=
  ⟨fun _ _ _ _ => rfl, by decide, by decide⟩

/-- C5: cancellation round-trip. For a lesson whose start and end both
normalize, building with `canceled = true` yields an event with status
CANCELLED whose uid equals the uid of the event built with
`canceled = false` (status CONFIRMED); the canceled flag never influences
the uid. -/
theorem C5_cancellation_roundtrip (z : ℤ) (l : Lesson)
    (h1 : (to_local z l.start).isSome) (h2 : (to_local z l.end_).isSome) :
    (∃ evt evf : Event,
       event_for z { l with canceled := true } = some evt ∧
       event_for z { l with canceled := false } = some evf ∧
       evt.uid = evf.uid ∧ evt.status = "CANCELLED" ∧
       evf.status = "CONFIRMED") ∧
    (∀ b1 b2 : Bool,
       Option.map Event.uid (event_for z { l with canceled := b1 }) =
         Option.map Event.uid (event_for z { l with canceled := b2 })) := by
  obtain ⟨ds, hs⟩ := Option.isSome_iff_exists.mp h1
  obtain ⟨de, he⟩ := Option.isSome_iff_exists.mp h2
  have huid : ∀ b : Bool,
      Option.map Event.uid (event_for z { l with canceled := b }) =
        some (uid_for ds (attr_or l.subject (attr_or l.subject_name "Cours"))
          (attr_or l.classroom (or_str (attr_or l.classroom_name "") ""))
          (attr_or l.teacher (or_str (attr_or l.teacher_name "") ""))) := by
    intro b
    simp only [event_for, hs, he]
    rfl
  have hstat : ∀ b : Bool,
      Option.map Event.status (event_for z { l with canceled := b }) =
        some (if b then "CANCELLED" else "CONFIRMED") := by
    intro b
    simp only [event_for, hs, he]
    rfl
  refine ⟨?_, fun b1 b2 => (huid b1).trans (huid b2).symm⟩
  cases hev1 : event_for z { l with canceled := true } with
  | none =>
      have u := huid true
      rw [hev1] at u
      simp at u
  | some evt =>
      cases hev2 : event_for z { l with canceled := false } with
      | none =>
          have u := huid false
          rw [hev2] at u
          simp at u
      | some evf =>
          have u1 := huid true
          rw [hev1] at u1
          have u2 := huid false
          rw [hev2] at u2
          have s1 := hstat true
          rw [hev1] at s1
          have s2 := hstat false
          rw [hev2] at s2
          refine ⟨evt, evf, rfl, rfl,
            (Option.some.inj u1).trans (Option.some.inj u2).symm, ?_, ?_⟩
          · simpa using s1
          · simpa using s2

/-- Witness for C5 at the spec's example lesson. -/
theorem C5_cancellation_roundtrip_witness :
    (∃ evt evf : Event,
       event_for 60 { example_lesson with canceled := true } = some evt ∧
       event_for 60 { example_lesson with canceled := false } = some evf ∧
       evt.uid = evf.uid ∧ evt.status = "CANCELLED" ∧
       evf.status = "CONFIRMED") ∧
    (∀ b1 b2 : Bool,
       Option.map Event.uid (event_for 60 { example_lesson with canceled := b1 }) =
         Option.map Event.uid (event_for 60 { example_lesson with canceled := b2 })) :=
  C5_cancellation_roundtrip 60 example_lesson (by decide) (by decide)

/-- C7: skip-on-missing-time. A record whose start or end normalizes to
`None` contributes no event at all (no partial event), building is total,
and the built document has exactly one event per record with both
timestamps resolvable. -/
theorem C7_skip_on_missing_time (z : ℤ) (lessons : List Lesson) :
    (lessons_to_ics z lessons).events.length =
      (lessons.filter (fun l => (to_local z l.start).isSome &&
        (to_local z l.end_).isSome)).length ∧
    ∀ l : Lesson, event_for z l = none ↔
      (to_local z l.start = none ∨ to_local z l.end_ = none) := by
  have hiff : ∀ l : Lesson, event_for z l = none ↔
      (to_local z l.start = none ∨ to_local z l.end_ = none) := by
    intro l
    cases hs : to_local z l.start with
    | none => simp [event_for, hs]
    | some ds =>
        cases he : to_local z l.end_ with
        | none => simp [event_for, hs, he]
        | some de => simp [event_for, hs, he]
  refine ⟨?_, hiff⟩
  show (lessons.filterMap (event_for z)).length = _
  induction lessons with
  | nil => rfl
  | cons hd tl ih =>
      cases hs : to_local z hd.start with
      | none =>
          have hnone : event_for z hd = none := (hiff hd).mpr (Or.inl hs)
          simp only [List.filterMap_cons, hnone, List.filter_cons]
          rw [if_neg (by simp [hs])]
          exact ih
      | some ds =>
          cases he : to_local z hd.end_ with
          | none =>
              have hnone : event_for z hd = none := (hiff hd).mpr (Or.inr he)
              simp only [List.filterMap_cons, hnone, List.filter_cons]
              rw [if_neg (by simp [hs, he])]
              exact ih
          | some de =>
              have hsome : ∃ ev, event_for z hd = some ev := by
                simp only [event_for, hs, he]
                exact ⟨_, rfl⟩
              obtain ⟨ev, hev⟩ := hsome
              simp only [List.filterMap_cons, hev, List.filter_cons]
              rw [if_pos (by simp [hs, he])]
              simp only [List.length_cons]
              rw [ih]

/-- Witness for C7: one resolvable record and one with a missing end. -/
theorem C7_skip_on_missing_time_witness :
    (lessons_to_ics 60 [example_lesson, { example_lesson with end_ := none }]).events.length =
      ([example_lesson, { example_lesson with end_ := none }].filter
        (fun l => (to_local 60 l.start).isSome && (to_local 60 l.end_).isSome)).length ∧
    ∀ l : Lesson, event_for 60 l = none ↔
      (to_local 60 l.start = none ∨ to_local 60 l.end_ = none) :=
  C7_skip_on_missing_time 60 [example_lesson, { example_lesson with end_ := none }]

theorem title_chain_eq_claim (l : Lesson) :
    attr_or l.subject (attr_or l.subject_name "Cours") = claim_title l := by
  rcases hs : l.subject with _ | s <;> rcases hn : l.subject_name with _ | s2 <;>
    simp only [attr_or, or_str, claim_title, hs, hn] <;>
    first
      | rfl
      | (split_ifs <;> simp_all)

theorem room_chain_eq_claim (l : Lesson) :
    attr_or l.classroom (or_str (attr_or l.classroom_name "") "") =
      claim_room l := by
  rcases hs : l.classroom with _ | s <;> rcases hn : l.classroom_name with _ | s2 <;>
    simp only [attr_or, or_str, claim_room, hs, hn] <;>
    first
      | rfl
      | (split_ifs <;> simp_all)

theorem teacher_chain_eq_claim (l : Lesson) :
    attr_or l.teacher (or_str (attr_or l.teacher_name "") "") =
      claim_teacher l := by
  rcases hs : l.teacher with _ | s <;> rcases hn : l.teacher_name with _ | s2 <;>
    simp only [attr_or, or_str, claim_teacher, hs, hn] <;>
    first
      | rfl
      | (split_ifs <;> simp_all)

theorem group_chain_eq_claim (l : Lesson) :
    or_str (attr_or l.group_name "") "" = claim_group l := by
  rcases hg : l.group_name with _ | s <;>
    simp only [attr_or, or_str, claim_group, hg] <;>
    first
      | rfl
      | (split_ifs <;> simp_all)

/-- C9 (counterexample): the claim as stated is false. For a lesson whose
subject fields are both absent (and no group label, so the summary is the
title), the built event's title is the source's literal `"Cours"`, not the
claimed `"Lesson"`. -/
theorem C9_counterexample :
    Option.map Event.summary (event_for 60 no_subject_lesson) = some "Cours" ∧
    Option.map Event.summary (event_for 60 no_subject_lesson) ≠ some "Lesson" := by
  decide

/-- C9 (amended): display-field fallbacks with the default title `"Cours"`
(the source's literal) instead of `"Lesson"`. Every built event's summary
is the title resolved from the primary subject field, else the secondary
alias, else `"Cours"`, parenthesised with the group label when one is
present; its location is the room (primary field, else alias, defaulting to
the empty string), omitted when empty; and its uid is derived from exactly
the resolved title, room and teacher (teacher defaulting to the empty
string likewise). -/
theorem C9_amended_display_fields (z : ℤ) (l : Lesson) (ev : Event)
    (h : event_for z l = some ev) :
    ev.summary = claim_summary l ∧
    ev.location = (if claim_room l = "" then none else some (claim_room l)) ∧
    ev.uid = uid_for ev.dtstart (claim_title l) (claim_room l)
      (claim_teacher l) := by
  cases hs : to_local z l.start with
  | none => simp [event_for, hs] at h
  | some ds =>
      cases he : to_local z l.end_ with
      | none => simp [event_for, hs, he] at h
      | some de =>
          simp only [event_for, hs, he, Option.some.injEq] at h
          subst h
          refine ⟨?_, ?_, ?_⟩
          · show (if or_str (attr_or l.group_name "") "" = ""
                then attr_or l.subject (attr_or l.subject_name "Cours")
                else attr_or l.subject (attr_or l.subject_name "Cours") ++
                  " (" ++ or_str (attr_or l.group_name "") "" ++ ")") =
              claim_summary l
            rw [group_chain_eq_claim, title_chain_eq_claim]
            rfl
          · show (if attr_or l.classroom (or_str (attr_or l.classroom_name "") "") ≠ ""
                then some (attr_or l.classroom (or_str (attr_or l.classroom_name "") ""))
                else none) =
              (if claim_room l = "" then none else some (claim_room l))
            rw [room_chain_eq_claim]
            by_cases hr : claim_room l = "" <;> simp [hr]
          · show uid_for ds (attr_or l.subject (attr_or l.subject_name "Cours"))
                (attr_or l.classroom (or_str (attr_or l.classroom_name "") ""))
                (attr_or l.teacher (or_str (attr_or l.teacher_name "") "")) =
              uid_for ds (claim_title l) (claim_room l) (claim_teacher l)
            rw [title_chain_eq_claim, room_chain_eq_claim, teacher_chain_eq_claim]

/-- Witness for the amended C9 at the spec's example lesson. -/
theorem C9_amended_display_fields_witness :
    (⟨"Math", "Enseignant·e : Dupont\nSalle : B12", some "B12",
       "0371b769ef9c1741acfd1b226d4148f633186a1c@pronote-ics",
       ⟨1709539200, some 60⟩, ⟨1709542800, some 60⟩, "CONFIRMED"⟩ : Event).summary =
      claim_summary example_lesson ∧
    (⟨"Math", "Enseignant·e : Dupont\nSalle : B12", some "B12",
       "0371b769ef9c1741acfd1b226d4148f633186a1c@pronote-ics",
       ⟨1709539200, some 60⟩, ⟨1709542800, some 60⟩, "CONFIRMED"⟩ : Event).location =
      (if claim_room example_lesson = "" then none
       else some (claim_room example_lesson)) ∧
    (⟨"Math", "Enseignant·e : Dupont\nSalle : B12", some "B12",
       "0371b769ef9c1741acfd1b226d4148f633186a1c@pronote-ics",
       ⟨1709539200, some 60⟩, ⟨1709542800, some 60⟩, "CONFIRMED"⟩ : Event).uid =
      uid_for (⟨"Math", "Enseignant·e : Dupont\nSalle : B12", some "B12",
        "0371b769ef9c1741acfd1b226d4148f633186a1c@pronote-ics",
        ⟨1709539200, some 60⟩, ⟨1709542800, some 60⟩, "CONFIRMED"⟩ : Event).dtstart
        (claim_title example_lesson) (claim_room example_lesson)
        (claim_teacher example_lesson) :=
  C9_amended_display_fields 60 example_lesson
    ⟨"Math", "Enseignant·e : Dupont\nSalle : B12", some "B12",
     "0371b769ef9c1741acfd1b226d4148f633186a1c@pronote-ics",
     ⟨1709539200, some 60⟩, ⟨1709542800, some 60⟩, "CONFIRMED"⟩ (by decide)

end PronoteICS
